import Mathlib

/-!
Verification of the auth-flow repository: a shallow embedding of the
token-lifecycle and authentication-resolution core (jwt.service.ts,
auth.service.ts, authController.ts, apiAuthController.ts, authGuard.ts)
together with proofs of the specified properties.

Modelling conventions:
- JavaScript strings are Lean `String`; the JS string methods used by the
  source (`trim`, `toLowerCase`, the digit regexes) are modelled explicitly
  over the character list so that all definitions evaluate in the kernel.
- JS numbers that hold second-counts are modelled as exact integers
  (`Nat`/`Int`); IEEE-754 rounding of astronomically large duration values
  is out of scope.
- JWTs are modelled symbolically: a wire string is either a well-formed
  token signed with some secret, or malformed. Signature verification
  succeeds exactly when the verifying secret equals the signing secret
  (standard symbolic-crypto assumption: no forgery, no collision).
- Exceptions that a TS function throws and that its caller turns into a
  response are modelled by `Option`/sum results; `none` at a configuration
  parse site corresponds to the thrown configuration error.
-/

namespace AuthFlow

/-! ## JS string primitives (semantics of the methods used by the source) -/

/-- Model of `String.prototype.toLowerCase` restricted to ASCII letters,
which is all the source compares (header values, duration units, emails). -/
def jsCharToLower (c : Char) : Char :=
  if 'A' ≤ c ∧ c ≤ 'Z' then Char.ofNat (c.toNat + 32) else c

/-- Model of `s.toLowerCase()`. -/
def jsToLower (s : String) : String := ⟨s.data.map jsCharToLower⟩

/-- Whitespace as removed by `String.prototype.trim`. -/
def jsIsWhite (c : Char) : Bool := c = ' ' || c = '\t' || c = '\n' || c = '\r'

/-- Model of `s.trim()`: strip leading and trailing whitespace. -/
def jsTrim (s : String) : String :=
  ⟨((s.data.dropWhile jsIsWhite).reverse.dropWhile jsIsWhite).reverse⟩

/-- The character class `\d` of the source regexes. -/
def jsIsDigit (c : Char) : Bool := '0' ≤ c && c ≤ '9'

/-- Numeric value of a digit string, as computed by `Number` on a string
that already passed a `^\d+$` test. -/
def digitsVal (cs : List Char) : Nat :=
  cs.foldl (fun acc c => acc * 10 + (c.toNat - '0'.toNat)) 0

/-- Occurrence of `pat` as a contiguous run of `l`. -/
def listIsInfixOf : List Char → List Char → Bool
  | pat, [] => pat.isEmpty
  | pat, c :: rest => pat.isPrefixOf (c :: rest) || listIsInfixOf pat rest

/-- Model of `a.includes(pat)`. -/
def strContains (s pat : String) : Bool := listIsInfixOf pat.data s.data

/-! ## jwt.service.ts -/

/-- A JSON value as far as token claims are concerned; the source only
inspects whether a claim is a string (`typeof x === "string"`). -/
inductive JVal where
  | jstr (s : String)
  | jnum (n : Int)
  | jbool (b : Bool)
  | jnull
  deriving DecidableEq, Repr

/-- The claim set of a decoded token: the identity fields plus the
`iat`/`exp` timestamps that `jwt.sign` adds. A missing field is `none`. -/
structure Claims where
  userId : Option JVal := none
  email : Option JVal := none
  iat : Option Int := none
  exp : Option Int := none
  deriving DecidableEq, Repr

/-- A wire token: either a well-formed JWT signed with a given secret and
carrying the given claims, or any other string (malformed). -/
inductive Token where
  | signed (claims : Claims) (secret : String)
  | malformed (raw : String)
  deriving DecidableEq, Repr

/-- Model of `jwt.sign(payload, secret, { expiresIn })`: stamps
`iat = now` and `exp = now + expiresIn` into the claims and signs. -/
def jwtSign (payload : Claims) (secret : String) (expiresIn : Nat) (now : Int) : Token :=
  .signed { payload with iat := some now, exp := some (now + expiresIn) } secret

/-- Model of `jwt.verify(token, secret)` at clock time `now`; `none`
stands for the thrown `JsonWebTokenError`/`TokenExpiredError`. Per the
jsonwebtoken library, a token is rejected as expired when
`now >= exp` (at exactly `exp` it is already expired). -/
def jwtVerify (tok : Token) (secret : String) (now : Int) : Option Claims :=
  match tok with
  | .malformed _ => none
  | .signed c s =>
    if s = secret then
      match c.exp with
      | some e => if now < e then some c else none
      | none => some c
    else none

/-- `multipliers` object of `parseDurationToSeconds`. -/
def multipliers (c : Char) : Option Nat :=
  match c with
  | 's' => some 1
  | 'm' => some 60
  | 'h' => some (60 * 60)
  | 'd' => some (60 * 60 * 24)
  | 'w' => some (60 * 60 * 24 * 7)
  | 'y' => some (60 * 60 * 24 * 365)
  | _ => none

/-- Match of `DURATION_REGEX = /^(\d+)(s|m|h|d|w|y)$/`: one or more digits
followed by a single unit letter; returns the two capture groups. -/
def durationRegexMatch (s : String) : Option (List Char × Char) :=
  match s.data.getLast? with
  | none => none
  | some u =>
    let ds := s.data.dropLast
    if ds ≠ [] ∧ ds.all jsIsDigit ∧
        (u = 's' ∨ u = 'm' ∨ u = 'h' ∨ u = 'd' ∨ u = 'w' ∨ u = 'y') then
      some (ds, u)
    else none

/-- `parseDurationToSeconds` of jwt.service.ts. `none` models the thrown
configuration error. The input is statically a string, so the
`typeof duration !== "string"` arm collapses into the emptiness test. -/
def parseDurationToSeconds (duration : String) : Option Nat :=
  if (jsTrim duration).data.length = 0 then none
  else
    let trimmed := jsToLower (jsTrim duration)
    if trimmed.data ≠ [] ∧ trimmed.data.all jsIsDigit then
      some (digitsVal trimmed.data)
    else
      match durationRegexMatch trimmed with
      | none => none
      | some (ds, u) =>
        match multipliers u with
        | some m => some (digitsVal ds * m)
        | none => none

/-- The payload `{ userId, email }` built by every controller. -/
def identityClaims (userId email : String) : Claims :=
  { userId := some (.jstr userId), email := some (.jstr email) }

/-- `createAccessToken`: copies the payload, deletes any stale `exp` and
`iat` fields, and signs with the configured access expiry. The expiry
string is the module-level `ACCESS_TOKEN_EXPIRY` configuration, passed
here explicitly; `none` models the configuration error thrown by
`parseDurationToSeconds`. -/
def createAccessToken (accessExpiry : String) (payload : Claims) (secret : String)
    (now : Int) : Option Token :=
  let cleanPayload := { payload with exp := none, iat := none }
  (parseDurationToSeconds accessExpiry).map fun ttl => jwtSign cleanPayload secret ttl now

/-- `signRefreshToken`: identical shape with the refresh expiry. -/
def signRefreshToken (refreshExpiry : String) (payload : Claims) (secret : String)
    (now : Int) : Option Token :=
  let cleanPayload := { payload with exp := none, iat := none }
  (parseDurationToSeconds refreshExpiry).map fun ttl => jwtSign cleanPayload secret ttl now

/-- The test `typeof x === "string"` on a claim field. -/
def isStringClaim : Option JVal → Bool
  | some (.jstr _) => true
  | _ => false

/-- `verifyToken`: `jwt.verify` inside try/catch (any throw becomes
`null`), then the runtime check that `userId` and `email` are present and
string-typed. -/
def verifyToken (tok : Token) (secret : String) (now : Int) : Option Claims :=
  match jwtVerify tok secret now with
  | none => none
  | some decoded =>
    if isStringClaim decoded.userId ∧ isStringClaim decoded.email then some decoded
    else none

/-- `verifyAccessToken` delegates to `verifyToken`. -/
def verifyAccessToken (tok : Token) (secret : String) (now : Int) : Option Claims :=
  verifyToken tok secret now

/-- `verifyRefreshToken` delegates to `verifyToken`. -/
def verifyRefreshToken (tok : Token) (secret : String) (now : Int) : Option Claims :=
  verifyToken tok secret now

/-! ## Users, errors, auth.service.ts -/

/-- A row of the `users` table (the fields the auth core reads). -/
structure User where
  id : String
  username : String
  email : String
  password : String
  deriving DecidableEq, Repr

/-- The user table, in insertion order. -/
abbrev UserStore := List User

/-- `UserModel.findByEmail`: first row whose email column equals the
argument exactly (SQL `=` on the text column). -/
def findByEmail (store : UserStore) (email : String) : Option User :=
  store.find? fun u => u.email = email

/-- A user record with the password stripped (`Omit<User, "password">`). -/
structure SafeUser where
  id : String
  username : String
  email : String
  deriving DecidableEq, Repr

/-- `const { password, ...safeUser } = user`. -/
def stripPassword (u : User) : SafeUser := ⟨u.id, u.username, u.email⟩

/-- An `AuthError` value: machine code, human message, HTTP status. -/
structure AuthError where
  code : String
  message : String
  status : Nat
  deriving DecidableEq, Repr

namespace AuthErrors

/-- `AuthErrors.EMAIL_TAKEN()`. -/
def EMAIL_TAKEN : AuthError := ⟨"EMAIL_TAKEN", "Email is already registered.", 409⟩

/-- `AuthErrors.INVALID_CREDENTIALS()`. -/
def INVALID_CREDENTIALS : AuthError := ⟨"INVALID_CREDENTIALS", "Invalid email or password.", 401⟩

end AuthErrors

/-- Registration DTO. -/
structure RegisterInput where
  username : String
  email : String
  password : String

/-- Login DTO. -/
structure LoginInput where
  email : String
  password : String

/-- The fixed dummy bcrypt hash of `AuthService.login`. -/
def dummyHash : String := "$2b$10$C6UzMDM.H6dfI/f/IKcCcOaJwC5pZfu5aQ9D0YHhFmp9rD9lyy7hW"

namespace AuthService

/-- `AuthService.register`. `hashPassword` (bcrypt) and the database id
generator are opaque collaborators passed in; the returned store models
the inserted row. -/
def register (hashPassword : String → String) (newId : String)
    (store : UserStore) (data : RegisterInput) : Except AuthError (SafeUser × UserStore) :=
  let normalizedEmail := jsToLower (jsTrim data.email)
  let normalizedUsername := jsTrim data.username
  match findByEmail store normalizedEmail with
  | some _ => .error AuthErrors.EMAIL_TAKEN
  | none =>
    let newUser : User :=
      ⟨newId, normalizedUsername, normalizedEmail, hashPassword data.password⟩
    .ok (stripPassword newUser, store ++ [newUser])

/-- `AuthService.login`. `verifyPassword` (bcrypt compare) is an opaque
collaborator. Besides the result, the function returns the list of
(password, hash) comparisons it performed, so that the
constant-time-shape policy is an observable of the model. -/
def login (verifyPassword : String → String → Bool)
    (store : UserStore) (data : LoginInput) :
    Except AuthError SafeUser × List (String × String) :=
  let normalizedEmail := jsToLower (jsTrim data.email)
  let user := findByEmail store normalizedEmail
  let hashToCheck := match user with
    | some u => u.password
    | none => dummyHash
  let isValid := verifyPassword data.password hashToCheck
  let result : Except AuthError SafeUser :=
    match user with
    | none => .error AuthErrors.INVALID_CREDENTIALS
    | some u =>
      if isValid then .ok (stripPassword u) else .error AuthErrors.INVALID_CREDENTIALS
  (result, [(data.password, hashToCheck)])

end AuthService

/-! ## authController.ts -/

/-- The derived client classification. -/
inductive ClientType where
  | web
  | mobile
  deriving DecidableEq, Repr

/-- `getClientType`: `(req.header("X-Client-Type") || "").toLowerCase() === "web"`. -/
def getClientType (clientTypeHeader : Option String) : ClientType :=
  if jsToLower (clientTypeHeader.getD "") = "web" then .web else .mobile

/-- `req.session.user` shape. -/
structure SessionUser where
  id : String
  email : String
  username : String
  deriving DecidableEq, Repr

/-- Request data read by the login handler. Absent body fields are `none`;
JS falsiness of the empty string is handled at the use site. -/
structure LoginRequest where
  email? : Option String
  password? : Option String
  clientTypeHeader : Option String
  deriving DecidableEq, Repr

/-- Observable outcome of the login handler: HTTP status, the response
envelope fields, the refresh cookie written, and the session created. -/
structure LoginResponse where
  status : Nat
  ok : Bool
  error? : Option String := none
  code? : Option String := none
  bodyAccessToken : Option Token := none
  bodyRefreshToken : Option Token := none
  cookieRefreshToken : Option Token := none
  sessionUserSet : Option SessionUser := none
  deriving DecidableEq, Repr

/-- `login` of authController.ts. A thrown `AuthError` is rendered by
`handleControllerError` as `{status, ok:false, error, code}`; a non-domain
throw (token creation with a bad expiry configuration) reaches the global
handler and renders 500. The web branch stores the session user, sets the
refresh cookie, and spreads `refreshToken: undefined` over the body; the
mobile branch returns the refresh token in the body. -/
def login (verifyPassword : String → String → Bool)
    (accessExpiry refreshExpiry secret : String)
    (store : UserStore) (req : LoginRequest) (now : Int) : LoginResponse :=
  match req.email?, req.password? with
  | some email, some password =>
    if email = "" ∨ password = "" then
      { status := 400, ok := false, error? := some "email and password are required" }
    else
      match AuthService.login verifyPassword store ⟨email, password⟩ with
      | (.error e, _) =>
        { status := e.status, ok := false, error? := some e.message, code? := some e.code }
      | (.ok user, _) =>
        let payload := identityClaims user.id user.email
        match createAccessToken accessExpiry payload secret now,
              signRefreshToken refreshExpiry payload secret now with
        | some accessToken, some refreshToken =>
          match getClientType req.clientTypeHeader with
          | .web =>
            { status := 200, ok := true,
              bodyAccessToken := some accessToken,
              bodyRefreshToken := none,
              cookieRefreshToken := some refreshToken,
              sessionUserSet := some ⟨user.id, user.email, user.username⟩ }
          | .mobile =>
            { status := 200, ok := true,
              bodyAccessToken := some accessToken,
              bodyRefreshToken := some refreshToken }
        | _, _ => { status := 500, ok := false, error? := some "Internal server error" }
  | _, _ => { status := 400, ok := false, error? := some "email and password are required" }

/-- Request data read by `refreshTokenHandler`: the `refreshToken` cookie
and the `refreshToken` body field. -/
structure RefreshRequest where
  clientTypeHeader : Option String
  cookieRefreshToken : Option Token
  bodyRefreshToken : Option Token
  deriving DecidableEq, Repr

/-- Observable outcome of the two refresh handlers. -/
structure RefreshResponse where
  status : Nat
  ok : Bool
  error? : Option String := none
  bodyAccessToken : Option Token := none
  bodyRefreshToken : Option Token := none
  cookieRefreshToken : Option Token := none
  deriving DecidableEq, Repr

/-- The `token` constant of `refreshTokenHandler`: cookie for web
clients, body field for mobile clients. -/
def refreshExtractToken (req : RefreshRequest) : Option Token :=
  match getClientType req.clientTypeHeader with
  | .web => req.cookieRefreshToken
  | .mobile => req.bodyRefreshToken

/-- `refreshTokenHandler` of authController.ts. Both the missing-token
and the failed-verification branches answer 401 here. -/
def refreshTokenHandler (accessExpiry refreshExpiry secret : String)
    (req : RefreshRequest) (now : Int) : RefreshResponse :=
  let clientType := getClientType req.clientTypeHeader
  match refreshExtractToken req with
  | none => { status := 401, ok := false, error? := some "Refresh token missing" }
  | some token =>
    match verifyRefreshToken token secret now with
    | none =>
      { status := 401, ok := false, error? := some "Invalid or expired refresh token" }
    | some payload =>
      match createAccessToken accessExpiry payload secret now,
            signRefreshToken refreshExpiry payload secret now with
      | some newAccessToken, some newRefreshToken =>
        match clientType with
        | .web =>
          { status := 200, ok := true,
            bodyAccessToken := some newAccessToken,
            cookieRefreshToken := some newRefreshToken }
        | .mobile =>
          { status := 200, ok := true,
            bodyAccessToken := some newAccessToken,
            bodyRefreshToken := some newRefreshToken }
      | _, _ => { status := 500, ok := false, error? := some "Internal server error" }

/-! ## apiAuthController.ts -/

/-- Request data read by `apiRefreshToken`: the `refresh_token` cookie and
the `refreshToken` / `token` body fields. -/
structure ApiRefreshRequest where
  cookieRefreshToken : Option Token
  bodyRefreshToken : Option Token
  bodyToken : Option Token
  deriving DecidableEq, Repr

/-- The token expression of `apiRefreshToken`:
`req.cookies?.refresh_token || req.body?.refreshToken || req.body?.token`. -/
def apiRefreshExtractToken (req : ApiRefreshRequest) : Option Token :=
  match req.cookieRefreshToken with
  | some t => some t
  | none =>
    match req.bodyRefreshToken with
    | some t => some t
    | none => req.bodyToken

/-- `apiRefreshToken` of apiAuthController.ts. A thrown `AppError` reaches
the global handler, which answers with the carried status; failed
verification is a 403 here, missing token a 401. -/
def apiRefreshToken (accessExpiry refreshExpiry secret : String)
    (req : ApiRefreshRequest) (now : Int) : RefreshResponse :=
  match apiRefreshExtractToken req with
  | none => { status := 401, ok := false, error? := some "Missing refresh token." }
  | some token =>
    match verifyRefreshToken token secret now with
    | none =>
      { status := 403, ok := false, error? := some "Invalid or expired refresh token." }
    | some payload =>
      match createAccessToken accessExpiry payload secret now,
            signRefreshToken refreshExpiry payload secret now with
      | some newAccessToken, some newRefreshToken =>
        { status := 200, ok := true,
          bodyAccessToken := some newAccessToken,
          bodyRefreshToken := some newRefreshToken,
          cookieRefreshToken := some newRefreshToken }
      | _, _ => { status := 500, ok := false, error? := some "Internal server error" }

/-- Outcome of `apiRegisterUser`: an error response, or 201 with the
created user, the updated table and the issued tokens. -/
inductive ApiRegisterResult where
  | errorResp (status : Nat) (message : String)
  | success (user : SafeUser) (store : UserStore) (accessToken refreshToken : Token)
  deriving DecidableEq, Repr

/-- HTTP status of an `apiRegisterUser` outcome. -/
def ApiRegisterResult.status : ApiRegisterResult → Nat
  | .errorResp s _ => s
  | .success .. => 201

/-- `apiRegisterUser` of apiAuthController.ts. Note: unlike
`AuthService.register`, this path performs no email normalization; the
duplicate lookup compares the raw request email. -/
def apiRegisterUser (hashPassword : String → String) (newId : String)
    (accessExpiry refreshExpiry secret : String) (now : Int)
    (store : UserStore) (email? password? name? : Option String) : ApiRegisterResult :=
  match email?, password? with
  | some email, some password =>
    if email = "" ∨ password = "" then
      .errorResp 400 "Email and password are required."
    else
      match store.find? (fun u => u.email = email) with
      | some _ => .errorResp 409 "User already exists."
      | none =>
        let user : User := ⟨newId, name?.getD "", email, hashPassword password⟩
        let payload := identityClaims user.id user.email
        match createAccessToken accessExpiry payload secret now,
              signRefreshToken refreshExpiry payload secret now with
        | some accessToken, some refreshToken =>
          .success (stripPassword user) (store ++ [user]) accessToken refreshToken
        | _, _ => .errorResp 500 "Internal server error"
  | _, _ => .errorResp 400 "Email and password are required."

/-! ## authGuard.ts -/

/-- The `Authorization` request header: either `Bearer <token>` or some
other string. -/
inductive AuthHeader where
  | bearer (tok : Token)
  | other (raw : String)
  deriving DecidableEq, Repr

/-- Request data read by the guard: attached session user, the
authorization header, and the fields that feed `expectsJson`. -/
structure GuardRequest where
  sessionUser : Option SessionUser
  authorization : Option AuthHeader
  xhr : Bool
  accept : Option String
  originalUrl : String
  deriving DecidableEq, Repr

/-- Resolver outcome: proceed (via session identity or via decoded token
identity written to `req.user`), or the two failure shapes. -/
inductive GuardOutcome where
  | proceedSession (u : SessionUser)
  | proceedJwt (id email : String)
  | unauthorizedJson
  | redirectLogin
  deriving DecidableEq, Repr

/-- Guard outcome together with the number of token verifications the
guard performed on the way. -/
structure GuardResult where
  outcome : GuardOutcome
  tokenVerifications : Nat
  deriving DecidableEq, Repr

/-- The `expectsJson` derivation of authGuard.ts. -/
def expectsJson (req : GuardRequest) : Bool :=
  req.xhr ||
    (match req.accept with
     | some a => strContains a "application/json"
     | none => false) ||
    req.originalUrl.data.take 5 = "/api/".data

/-- Failure classification shared by every unauthenticated fall-through. -/
def guardFallthrough (req : GuardRequest) : GuardOutcome :=
  if expectsJson req then .unauthorizedJson else .redirectLogin

/-- `authGuard` of authGuard.ts: session first, then bearer token, then
failure classification. The truthiness test `payload?.userId &&
payload?.email` additionally rejects empty strings. -/
def authGuard (secret : String) (req : GuardRequest) (now : Int) : GuardResult :=
  match req.sessionUser with
  | some u => ⟨.proceedSession u, 0⟩
  | none =>
    match req.authorization with
    | some (.bearer token) =>
      match verifyAccessToken token secret now with
      | some payload =>
        match payload.userId, payload.email with
        | some (.jstr uid), some (.jstr em) =>
          if uid ≠ "" ∧ em ≠ "" then ⟨.proceedJwt uid em, 1⟩
          else ⟨guardFallthrough req, 1⟩
        | _, _ => ⟨guardFallthrough req, 1⟩
      | none => ⟨guardFallthrough req, 1⟩
    | _ => ⟨guardFallthrough req, 0⟩

/-! ## apiGetProfile of apiAuthController.ts -/

/-- Request data read by `apiGetProfile`. -/
structure ProfileRequest where
  sessionUser : Option SessionUser
  authorization : Option AuthHeader
  cookieRefreshToken : Option Token
  deriving DecidableEq, Repr

/-- Observable outcome of `apiGetProfile`: status, the id of the user in
the body, and the `x-new-access-token` response header. -/
structure ProfileResponse where
  status : Nat
  success : Bool
  userId? : Option String := none
  newAccessTokenHeader : Option Token := none
  deriving DecidableEq, Repr

/-- The credential-resolution phase of `apiGetProfile`: an if/else-if
chain over session, bearer access token, and refresh-token cookie.
Returns the resolved user id (if any) and the `x-new-access-token` header
value set by the refresh branch. Throws inside the token branches are
swallowed by their try/catch blocks. -/
def apiProfileResolve (accessExpiry secret : String) (req : ProfileRequest)
    (now : Int) : Option String × Option Token :=
  match req.sessionUser with
  | some u => (some u.id, none)
  | none =>
    match req.authorization with
    | some (.bearer token) =>
      (match verifyAccessToken token secret now with
       | some payload =>
         (match payload.userId with
          | some (.jstr uid) => (if uid ≠ "" then some uid else none, none)
          | _ => (none, none))
       | none => (none, none))
    | _ =>
      match req.cookieRefreshToken with
      | none => (none, none)
      | some rtok =>
        match verifyRefreshToken rtok secret now with
        | none => (none, none)
        | some payload =>
          match payload.userId, payload.email with
          | some (.jstr uid), some (.jstr em) =>
            if uid ≠ "" then
              match createAccessToken accessExpiry (identityClaims uid em) secret now with
              | some newAccessToken => (some uid, some newAccessToken)
              | none => (none, none)
            else (none, none)
          | _, _ => (none, none)

/-- `apiGetProfile`: resolve credentials, then load the user row by id;
401 when nothing resolved, 404 when the row is gone. -/
def apiGetProfile (accessExpiry secret : String) (store : UserStore)
    (req : ProfileRequest) (now : Int) : ProfileResponse :=
  match apiProfileResolve accessExpiry secret req now with
  | (none, hdr) => { status := 401, success := false, newAccessTokenHeader := hdr }
  | (some uid, hdr) =>
    match store.find? (fun u => u.id = uid) with
    | none => { status := 404, success := false, newAccessTokenHeader := hdr }
    | some u =>
      { status := 200, success := true, userId? := some u.id, newAccessTokenHeader := hdr }

/-! ## Theorems -/

/-- C1: Access-token round-trip. For every identity payload with
string-typed userId and email, verifying an access token issued for that
identity with the same secret returns a payload whose userId and email
equal the originals at any time strictly before the exp stamped at issue
time, and returns null at any time at or after that exp. -/
theorem accessToken_roundTrip
    (accessExpiry secret uid em : String) (ttl : Nat) (t0 t : Int)
    (hp : parseDurationToSeconds accessExpiry = some ttl) :
    ∃ tok, createAccessToken accessExpiry (identityClaims uid em) secret t0 = some tok ∧
      (t < t0 + ttl →
        ∃ c, verifyAccessToken tok secret t = some c ∧
          c.userId = some (.jstr uid) ∧ c.email = some (.jstr em)) ∧
      (t0 + ttl ≤ t → verifyAccessToken tok secret t = none) := by
  refine ⟨jwtSign { identityClaims uid em with exp := none, iat := none } secret ttl t0,
    by simp [createAccessToken, hp], ?_, ?_⟩
  · intro hlt
    refine ⟨{ userId := some (.jstr uid), email := some (.jstr em),
              iat := some t0, exp := some (t0 + ttl) }, ?_, rfl, rfl⟩
    simp [verifyAccessToken, verifyToken, jwtVerify, jwtSign, identityClaims,
      isStringClaim, hlt]
  · intro hle
    simp [verifyAccessToken, verifyToken, jwtVerify, jwtSign, identityClaims,
      isStringClaim, not_lt.mpr hle]

/-- Witness for C1 at the deployed access expiry. -/
theorem accessToken_roundTrip_witness :
    parseDurationToSeconds "15m" = some 900 ∧
    (∃ tok, createAccessToken "15m" (identityClaims "u1" "a@b.com") "sec" 0 = some tok ∧
      ((10 : Int) < 0 + 900 →
        ∃ c, verifyAccessToken tok "sec" 10 = some c ∧
          c.userId = some (.jstr "u1") ∧ c.email = some (.jstr "a@b.com")) ∧
      ((0 : Int) + 900 ≤ 10 → verifyAccessToken tok "sec" 10 = none)) :=
  ⟨by decide, accessToken_roundTrip "15m" "sec" "u1" "a@b.com" 900 0 10 (by decide)⟩

/-- The signature-and-expiry layer: `jwtVerify` yields a payload exactly
when the token is well-signed with the verifying secret and unexpired. -/
theorem jwtVerify_eq_some_iff (tok : Token) (secret : String) (now : Int) (c : Claims) :
    jwtVerify tok secret now = some c ↔
      tok = .signed c secret ∧ ∀ e, c.exp = some e → now < e := by
  cases tok with
  | malformed raw => simp [jwtVerify]
  | signed c' s =>
    simp only [jwtVerify]
    by_cases hs : s = secret
    · subst hs
      rw [if_pos rfl]
      cases hexp : c'.exp with
      | none =>
        constructor
        · intro h
          obtain rfl : c' = c := Option.some.inj h
          exact ⟨rfl, fun e he => by rw [hexp] at he; cases he⟩
        · rintro ⟨h, -⟩
          obtain ⟨rfl, -⟩ := Token.signed.inj h
          rfl
      | some e =>
        constructor
        · intro h
          have h2 : (if now < e then some c' else none) = some c := h
          by_cases ht : now < e
          · rw [if_pos ht] at h2
            obtain rfl : c' = c := Option.some.inj h2
            refine ⟨rfl, fun e' he' => ?_⟩
            rw [hexp] at he'
            obtain rfl : e = e' := Option.some.inj he'
            exact ht
          · rw [if_neg ht] at h2
            cases h2
        · rintro ⟨h, hlt⟩
          obtain ⟨rfl, -⟩ := Token.signed.inj h
          show (if now < e then some c' else none) = some c'
          rw [if_pos (hlt e hexp)]
    · rw [if_neg hs]
      constructor
      · intro h
        cases h
      · rintro ⟨h, -⟩
        obtain ⟨-, h2⟩ := Token.signed.inj h
        exact absurd h2 hs

/-- Unfolding of the `typeof x === "string"` test. -/
theorem isStringClaim_iff (o : Option JVal) :
    isStringClaim o = true ↔ ∃ s, o = some (.jstr s) := by
  cases o with
  | none => simp [isStringClaim]
  | some v => cases v <;> simp [isStringClaim]

/-- The claim-shape layer: `verifyToken` additionally demands string-typed
userId and email claims. -/
theorem verifyToken_eq_some_iff (tok : Token) (secret : String) (now : Int) (c : Claims) :
    verifyToken tok secret now = some c ↔
      jwtVerify tok secret now = some c ∧
      (∃ u, c.userId = some (.jstr u)) ∧ (∃ em, c.email = some (.jstr em)) := by
  unfold verifyToken
  cases hv : jwtVerify tok secret now with
  | none => simp
  | some d =>
    constructor
    · intro h
      have h2 : (if isStringClaim d.userId ∧ isStringClaim d.email then some d else none)
          = some c := h
      by_cases hc : isStringClaim d.userId ∧ isStringClaim d.email
      · rw [if_pos hc] at h2
        obtain rfl : d = c := Option.some.inj h2
        exact ⟨rfl, (isStringClaim_iff _).mp hc.1, (isStringClaim_iff _).mp hc.2⟩
      · rw [if_neg hc] at h2
        cases h2
    · rintro ⟨hd, hu, he⟩
      obtain rfl : d = c := Option.some.inj hd
      show (if isStringClaim d.userId ∧ isStringClaim d.email then some d else none) = some d
      rw [if_pos ⟨(isStringClaim_iff _).mpr hu, (isStringClaim_iff _).mpr he⟩]

/-- C2: Token verification never throws: both verifiers are total
functions into an option type, agree with `verifyToken`, and return a
payload exactly when the token is well-signed with the verifying secret,
unexpired at the evaluation time, and carries string-typed userId and
email claims. In every other case, including malformed tokens, wrong
signatures, expiry and missing or non-string claims, they return null. -/
theorem verifyToken_total_null_on_failure (tok : Token) (secret : String) (now : Int)
    (c : Claims) :
    verifyAccessToken tok secret now = verifyToken tok secret now ∧
    verifyRefreshToken tok secret now = verifyToken tok secret now ∧
    (verifyToken tok secret now = some c ↔
      (tok = .signed c secret ∧
       (∀ e, c.exp = some e → now < e) ∧
       (∃ u, c.userId = some (.jstr u)) ∧
       (∃ em, c.email = some (.jstr em)))) := by
  refine ⟨rfl, rfl, ?_⟩
  rw [verifyToken_eq_some_iff, jwtVerify_eq_some_iff]
  tauto

/-- C3 counterexample: a web refresh request carrying a present but
malformed refresh token is answered with status 401 by
`refreshTokenHandler`, not with the 403 the claim requires. -/
theorem refreshTokenHandler_invalid_status_401 :
    refreshExtractToken ⟨some "web", some (.malformed "garbage"), none⟩ =
      some (.malformed "garbage") ∧
    verifyRefreshToken (.malformed "garbage") "sec" 0 = none ∧
    (refreshTokenHandler "15m" "7d" "sec"
      ⟨some "web", some (.malformed "garbage"), none⟩ 0).status = 401 := by
  decide

/-- C3 amended: in both refresh handlers a request from which no refresh
token can be extracted is answered 401; a present token that fails
verification is answered 403 by `apiRefreshToken` but 401 (the same
status as the missing case) by `refreshTokenHandler`. -/
theorem refresh_failure_classification
    (accessExpiry refreshExpiry secret : String) (now : Int) :
    (∀ req : RefreshRequest, refreshExtractToken req = none →
        (refreshTokenHandler accessExpiry refreshExpiry secret req now).status = 401) ∧
    (∀ (req : RefreshRequest) (tok : Token), refreshExtractToken req = some tok →
        verifyRefreshToken tok secret now = none →
        (refreshTokenHandler accessExpiry refreshExpiry secret req now).status = 401) ∧
    (∀ req : ApiRefreshRequest, apiRefreshExtractToken req = none →
        (apiRefreshToken accessExpiry refreshExpiry secret req now).status = 401) ∧
    (∀ (req : ApiRefreshRequest) (tok : Token), apiRefreshExtractToken req = some tok →
        verifyRefreshToken tok secret now = none →
        (apiRefreshToken accessExpiry refreshExpiry secret req now).status = 403) := by
  refine ⟨?_, ?_, ?_, ?_⟩
  · intro req h
    simp [refreshTokenHandler, h]
  · intro req tok h hv
    simp [refreshTokenHandler, h, hv]
  · intro req h
    simp [apiRefreshToken, h]
  · intro req tok h hv
    simp [apiRefreshToken, h, hv]

/-- The only domain error the login service can produce. -/
theorem AuthService.login_error_eq (verifyPassword : String → String → Bool)
    (store : UserStore) (data : LoginInput) (e : AuthError)
    (h : (AuthService.login verifyPassword store data).1 = .error e) :
    e = AuthErrors.INVALID_CREDENTIALS := by
  unfold AuthService.login at h
  cases hf : findByEmail store (jsToLower (jsTrim data.email)) with
  | none =>
    simp only [hf] at h
    exact (Except.error.inj h).symm
  | some u =>
    simp only [hf] at h
    by_cases hv : verifyPassword data.password u.password
    · rw [if_pos hv] at h
      cases h
    · rw [if_neg hv] at h
      exact (Except.error.inj h).symm

/-- `getClientType` unfolded: web exactly when the lowercased header
equals "web". -/
theorem getClientType_eq_web_iff (h : Option String) :
    getClientType h = .web ↔ jsToLower (h.getD "") = "web" := by
  unfold getClientType
  split_ifs with hw
  · simp [hw]
  · simp [hw]

/-- C4: Login response shape by client type. On every successful login
(status 200), a web client receives no refresh token in the JSON body,
while a mobile client receives the refresh token alongside the access
token; the client type is web exactly when the X-Client-Type header
equals "web" up to letter casing, and mobile otherwise. -/
theorem login_refreshToken_by_clientType
    (verifyPassword : String → String → Bool) (accessExpiry refreshExpiry secret : String)
    (store : UserStore) (req : LoginRequest) (now : Int)
    (hok : (login verifyPassword accessExpiry refreshExpiry secret store req now).status
      = 200) :
    (getClientType req.clientTypeHeader = .web ↔
      jsToLower (req.clientTypeHeader.getD "") = "web") ∧
    (getClientType req.clientTypeHeader = .web →
      (login verifyPassword accessExpiry refreshExpiry secret store req now).bodyRefreshToken
        = none) ∧
    (getClientType req.clientTypeHeader = .mobile →
      (∃ rt, (login verifyPassword accessExpiry refreshExpiry secret store req
          now).bodyRefreshToken = some rt) ∧
      (∃ atk, (login verifyPassword accessExpiry refreshExpiry secret store req
          now).bodyAccessToken = some atk)) := by
  refine ⟨getClientType_eq_web_iff _, ?_⟩
  cases hem : req.email? with
  | none => simp only [login, hem] at hok; cases hok
  | some email =>
  cases hpw : req.password? with
  | none => simp only [login, hem, hpw] at hok; cases hok
  | some password =>
  simp only [login, hem, hpw] at hok ⊢
  by_cases hval : email = "" ∨ password = ""
  · rw [if_pos hval] at hok
    cases hok
  · rw [if_neg hval] at hok ⊢
    rcases hlog : AuthService.login verifyPassword store ⟨email, password⟩ with ⟨res, trace⟩
    cases res with
    | error e =>
      rw [hlog] at hok
      have he : e = AuthErrors.INVALID_CREDENTIALS :=
        AuthService.login_error_eq verifyPassword store ⟨email, password⟩ e
          (by rw [hlog])
      subst he
      have h401 : (401 : Nat) = 200 := hok
      exact absurd h401 (by decide)
    | ok user =>
      rw [hlog] at hok
      dsimp only at hok
      cases hca : createAccessToken accessExpiry (identityClaims user.id user.email)
          secret now with
      | none =>
        rw [hca] at hok
        have h500 : (500 : Nat) = 200 := hok
        exact absurd h500 (by decide)
      | some accessToken =>
      cases hcr : signRefreshToken refreshExpiry (identityClaims user.id user.email)
          secret now with
      | none =>
        rw [hca, hcr] at hok
        have h500 : (500 : Nat) = 200 := hok
        exact absurd h500 (by decide)
      | some refreshToken =>
      cases hct : getClientType req.clientTypeHeader with
      | web => simp [hca, hcr]
      | mobile => simp [hca, hcr]

/-- Witness for C4: a successful concrete web login has no refresh token
in the body, and the same login as mobile carries one. -/
theorem login_refreshToken_by_clientType_witness :
    ((login (fun p h => p = "pw" ∧ h = "H") "15m" "7d" "sec" [⟨"1", "alice", "a@b.com", "H"⟩]
        ⟨some "a@b.com", some "pw", some "Web"⟩ 0).status = 200 ∧
      (getClientType (some "Web") = .web →
        (login (fun p h => p = "pw" ∧ h = "H") "15m" "7d" "sec" [⟨"1", "alice", "a@b.com", "H"⟩]
          ⟨some "a@b.com", some "pw", some "Web"⟩ 0).bodyRefreshToken = none)) ∧
    ((login (fun p h => p = "pw" ∧ h = "H") "15m" "7d" "sec" [⟨"1", "alice", "a@b.com", "H"⟩]
        ⟨some "a@b.com", some "pw", none⟩ 0).status = 200 ∧
      (getClientType (none : Option String) = .mobile →
        ∃ rt, (login (fun p h => p = "pw" ∧ h = "H") "15m" "7d" "sec"
          [⟨"1", "alice", "a@b.com", "H"⟩]
          ⟨some "a@b.com", some "pw", none⟩ 0).bodyRefreshToken = some rt)) :=
  ⟨⟨by decide,
    (login_refreshToken_by_clientType (fun p h => p = "pw" ∧ h = "H") "15m" "7d" "sec"
      [⟨"1", "alice", "a@b.com", "H"⟩] ⟨some "a@b.com", some "pw", some "Web"⟩ 0
      (by decide)).2.1⟩,
   ⟨by decide,
    fun hm => ((login_refreshToken_by_clientType (fun p h => p = "pw" ∧ h = "H") "15m" "7d"
      "sec" [⟨"1", "alice", "a@b.com", "H"⟩] ⟨some "a@b.com", some "pw", none⟩ 0
      (by decide)).2.2 hm).1⟩⟩

/-- C5: Session-first resolution. A request carrying a session-attached
user is authenticated with that session identity with no token
verification performed, whatever the Authorization header holds; when no
session user is attached and the bearer token fails verification, the
guard falls through to the shared failure classification (JSON 401 or
login redirect) instead of a distinct hard failure, after exactly one
token verification. -/
theorem authGuard_session_first (secret : String) (req : GuardRequest) (now : Int) :
    (∀ u, req.sessionUser = some u →
      authGuard secret req now = ⟨.proceedSession u, 0⟩) ∧
    (req.sessionUser = none →
      ∀ tok, req.authorization = some (.bearer tok) →
        verifyAccessToken tok secret now = none →
        authGuard secret req now = ⟨guardFallthrough req, 1⟩) := by
  constructor
  · intro u hu
    simp [authGuard, hu]
  · intro hs tok ha hv
    simp [authGuard, hs, ha, hv]

/-- Witness for C5 on concrete requests. -/
theorem authGuard_session_first_witness :
    authGuard "sec"
      ⟨some ⟨"1", "a@b.com", "alice"⟩, some (.bearer (.malformed "x")), false, none, "/api/x"⟩ 0
      = ⟨.proceedSession ⟨"1", "a@b.com", "alice"⟩, 0⟩ ∧
    authGuard "sec"
      ⟨none, some (.bearer (.malformed "x")), false, some "application/json", "/z"⟩ 0
      = ⟨guardFallthrough
          ⟨none, some (.bearer (.malformed "x")), false, some "application/json", "/z"⟩, 1⟩ :=
  ⟨(authGuard_session_first "sec"
      ⟨some ⟨"1", "a@b.com", "alice"⟩, some (.bearer (.malformed "x")), false, none, "/api/x"⟩
      0).1 ⟨"1", "a@b.com", "alice"⟩ rfl,
   (authGuard_session_first "sec"
      ⟨none, some (.bearer (.malformed "x")), false, some "application/json", "/z"⟩ 0).2
      rfl (.malformed "x") rfl (by decide)⟩

/-- Witness for the amended C3 on concrete requests. -/
theorem refresh_failure_classification_witness :
    (refreshTokenHandler "15m" "7d" "sec"
      ⟨some "web", some (.malformed "g"), none⟩ 0).status = 401 ∧
    (apiRefreshToken "15m" "7d" "sec"
      ⟨some (.malformed "g"), none, none⟩ 0).status = 403 :=
  ⟨(refresh_failure_classification "15m" "7d" "sec" 0).2.1
      ⟨some "web", some (.malformed "g"), none⟩ (.malformed "g") (by decide) (by decide),
   (refresh_failure_classification "15m" "7d" "sec" 0).2.2.2
      ⟨some (.malformed "g"), none, none⟩ (.malformed "g") (by decide) (by decide)⟩

/-- Appending a fresh row with the looked-up email makes the lookup hit it. -/
theorem findByEmail_append (store : UserStore) (u : User) (e : String)
    (hnone : findByEmail store e = none) (hu : u.email = e) :
    findByEmail (store ++ [u]) e = some u := by
  unfold findByEmail at hnone ⊢
  rw [List.find?_append, hnone]
  rw [List.find?_cons_of_pos]
  · rfl
  · simp [hu]

/-- The user table for the C6 counterexample: one registered user whose
stored (normalized) email is a@b.com. -/
def c6Store : UserStore := [⟨"1", "a", "a@b.com", "h"⟩]

/-- C6 counterexample: with a@b.com already registered, a second
registration through `apiRegisterUser` whose email differs only by letter
casing is answered 201 (created) rather than failing with EmailTaken,
because this path compares the raw email without normalization. -/
theorem apiRegisterUser_skips_normalization :
    jsToLower (jsTrim "A@B.com") = "a@b.com" ∧
    c6Store = [⟨"1", "a", "a@b.com", "h"⟩] ∧
    (apiRegisterUser (fun p => p) "2" "15m" "7d" "sec" 0 c6Store
      (some "A@B.com") (some "p") (some "x")).status = 201 := by
  decide

/-- C6 amended: on the `AuthService` register and login paths the email is
normalized (trim plus lowercase) before lookup, so after a successful
registration any second registration whose email differs only by casing
or surrounding whitespace fails with EmailTaken (status 409, code
EMAIL_TAKEN), and login treats emails with equal normalizations
identically; the `apiRegisterUser` path, however, compares the raw email
and rejects only exact duplicates. -/
theorem register_duplicate_normalized
    (hashPassword : String → String) (newId newId2 : String) (store store2 : UserStore)
    (data data2 : RegisterInput) (u : SafeUser)
    (h1 : AuthService.register hashPassword newId store data = .ok (u, store2))
    (h2 : jsToLower (jsTrim data2.email) = jsToLower (jsTrim data.email)) :
    (AuthService.register hashPassword newId2 store2 data2 = .error AuthErrors.EMAIL_TAKEN ∧
     AuthErrors.EMAIL_TAKEN.status = 409 ∧ AuthErrors.EMAIL_TAKEN.code = "EMAIL_TAKEN") ∧
    (∀ (verifyPassword : String → String → Bool) (pw e1 e2 : String) (st : UserStore),
      jsToLower (jsTrim e1) = jsToLower (jsTrim e2) →
      AuthService.login verifyPassword st ⟨e1, pw⟩ =
        AuthService.login verifyPassword st ⟨e2, pw⟩) := by
  constructor
  · refine ⟨?_, rfl, rfl⟩
    unfold AuthService.register at h1 ⊢
    dsimp only at h1 ⊢
    cases hf : findByEmail store (jsToLower (jsTrim data.email)) with
    | some v =>
      rw [hf] at h1
      cases h1
    | none =>
      rw [hf] at h1
      have hst : store ++
          [⟨newId, jsTrim data.username, jsToLower (jsTrim data.email),
            hashPassword data.password⟩] = store2 :=
        congrArg Prod.snd (Except.ok.inj h1)
      rw [h2, ← hst, findByEmail_append store _ _ hf rfl]
  · intro verifyPassword pw e1 e2 st he
    unfold AuthService.login
    rw [he]

/-- Witness for the amended C6: a registration with a spaced, mixed-case
email normalizes to a@b.com, and a second registration with another
casing variant fails with EmailTaken. -/
theorem register_duplicate_normalized_witness :
    AuthService.register (fun p => p) "1" [] ⟨"a", " A@b.com ", "p"⟩ =
      .ok (⟨"1", "a", "a@b.com"⟩, [⟨"1", "a", "a@b.com", "p"⟩]) ∧
    jsToLower (jsTrim "a@B.COM") = jsToLower (jsTrim " A@b.com ") ∧
    AuthService.register (fun p => p) "2" [⟨"1", "a", "a@b.com", "p"⟩]
      ⟨"b", "a@B.COM", "q"⟩ = .error AuthErrors.EMAIL_TAKEN :=
  ⟨rfl, by decide,
   ((register_duplicate_normalized (fun p => p) "1" "2" [] [⟨"1", "a", "a@b.com", "p"⟩]
      ⟨"a", " A@b.com ", "p"⟩ ⟨"b", "a@B.COM", "q"⟩ ⟨"1", "a", "a@b.com"⟩
      rfl (by decide)).1).1⟩

/-- C7: Constant-time-shape login failure. When the looked-up user does
not exist, the service still performs exactly one password comparison,
against the fixed dummy bcrypt hash; and the nonexistent-user case and
the wrong-password case produce the identical InvalidCredentials outcome
(status 401, code INVALID_CREDENTIALS, same message), so the observable
result does not reveal whether the user exists. -/
theorem login_constant_shape
    (verifyPassword : String → String → Bool) (store : UserStore) (d1 d2 : LoginInput)
    (h1 : findByEmail store (jsToLower (jsTrim d1.email)) = none)
    (u : User)
    (h2 : findByEmail store (jsToLower (jsTrim d2.email)) = some u)
    (h3 : verifyPassword d2.password u.password = false) :
    AuthService.login verifyPassword store d1 =
      (.error AuthErrors.INVALID_CREDENTIALS, [(d1.password, dummyHash)]) ∧
    AuthService.login verifyPassword store d2 =
      (.error AuthErrors.INVALID_CREDENTIALS, [(d2.password, u.password)]) ∧
    AuthErrors.INVALID_CREDENTIALS.status = 401 ∧
    AuthErrors.INVALID_CREDENTIALS.code = "INVALID_CREDENTIALS" ∧
    (AuthService.login verifyPassword store d1).1 =
      (AuthService.login verifyPassword store d2).1 := by
  have ha : AuthService.login verifyPassword store d1 =
      (.error AuthErrors.INVALID_CREDENTIALS, [(d1.password, dummyHash)]) := by
    simp [AuthService.login, h1]
  have hb : AuthService.login verifyPassword store d2 =
      (.error AuthErrors.INVALID_CREDENTIALS, [(d2.password, u.password)]) := by
    simp [AuthService.login, h2, h3]
  exact ⟨ha, hb, rfl, rfl, by rw [ha, hb]⟩

/-- Witness for C7 on a concrete store: unknown email and known email
with wrong password yield the same error value. -/
theorem login_constant_shape_witness :
    AuthService.login (fun p h => p = "secret" ∧ h = "H") [⟨"1", "alice", "a@b.com", "H"⟩]
      ⟨"x@y.com", "pw"⟩ =
      (.error AuthErrors.INVALID_CREDENTIALS, [("pw", dummyHash)]) ∧
    AuthService.login (fun p h => p = "secret" ∧ h = "H") [⟨"1", "alice", "a@b.com", "H"⟩]
      ⟨"a@b.com", "pw"⟩ =
      (.error AuthErrors.INVALID_CREDENTIALS, [("pw", "H")]) :=
  ⟨(login_constant_shape (fun p h => p = "secret" ∧ h = "H") [⟨"1", "alice", "a@b.com", "H"⟩]
      ⟨"x@y.com", "pw"⟩ ⟨"a@b.com", "pw"⟩ (by decide) ⟨"1", "alice", "a@b.com", "H"⟩
      (by decide) (by decide)).1,
   (login_constant_shape (fun p h => p = "secret" ∧ h = "H") [⟨"1", "alice", "a@b.com", "H"⟩]
      ⟨"x@y.com", "pw"⟩ ⟨"a@b.com", "pw"⟩ (by decide) ⟨"1", "alice", "a@b.com", "H"⟩
      (by decide) (by decide)).2.1⟩

/-- A decimal digit is not JS whitespace. -/
theorem digit_not_white (c : Char) (h : jsIsDigit c = true) : jsIsWhite c = false := by
  unfold jsIsDigit at h
  rw [Bool.and_eq_true, decide_eq_true_eq, decide_eq_true_eq] at h
  unfold jsIsWhite
  rw [Bool.or_eq_false_iff, Bool.or_eq_false_iff, Bool.or_eq_false_iff]
  refine ⟨⟨⟨?_, ?_⟩, ?_⟩, ?_⟩ <;>
  · rw [decide_eq_false_iff_not]
    rintro rfl
    revert h
    decide

/-- A decimal digit is not an uppercase ASCII letter. -/
theorem digit_not_upper (c : Char) (h : jsIsDigit c = true) : ¬('A' ≤ c ∧ c ≤ 'Z') := by
  unfold jsIsDigit at h
  rw [Bool.and_eq_true, decide_eq_true_eq, decide_eq_true_eq] at h
  rintro ⟨ha, -⟩
  exact absurd (le_trans ha h.2) (by decide)

/-- A duration unit letter is lowercase, not whitespace and not a digit. -/
theorem unit_char_props (u : Char)
    (hu : u = 's' ∨ u = 'm' ∨ u = 'h' ∨ u = 'd' ∨ u = 'w' ∨ u = 'y') :
    jsIsWhite u = false ∧ ¬('A' ≤ u ∧ u ≤ 'Z') ∧ jsIsDigit u = false := by
  rcases hu with rfl | rfl | rfl | rfl | rfl | rfl <;> exact ⟨by decide, by decide, by decide⟩

/-- dropWhile is the identity when no element satisfies the predicate. -/
theorem dropWhile_eq_self_of_none {p : Char → Bool} (l : List Char)
    (h : ∀ c ∈ l, p c = false) : l.dropWhile p = l := by
  cases l with
  | nil => rfl
  | cons c cs =>
    rw [List.dropWhile_cons, h c (List.mem_cons_self c cs)]
    simp

/-- Trimming a string with no edge whitespace anywhere is the identity. -/
theorem jsTrim_eq_self (s : String) (h : ∀ c ∈ s.data, jsIsWhite c = false) :
    jsTrim s = s := by
  obtain ⟨l⟩ := s
  unfold jsTrim
  rw [dropWhile_eq_self_of_none l h,
      dropWhile_eq_self_of_none l.reverse (fun c hc => h c (List.mem_reverse.mp hc)),
      List.reverse_reverse]

/-- Lowercasing a string with no uppercase ASCII letter is the identity. -/
theorem jsToLower_eq_self (s : String) (h : ∀ c ∈ s.data, ¬('A' ≤ c ∧ c ≤ 'Z')) :
    jsToLower s = s := by
  obtain ⟨l⟩ := s
  unfold jsToLower
  congr 1
  induction l with
  | nil => rfl
  | cons c cs ih =>
    rw [List.map_cons, ih (fun x hx => h x (List.mem_cons_of_mem _ hx))]
    congr 1
    unfold jsCharToLower
    rw [if_neg (h c (List.mem_cons_self _ _))]

/-- A list splits into its dropLast part and its optional last element. -/
theorem getLast?_decomp (l : List Char) (u : Char) (h : l.getLast? = some u) :
    l = l.dropLast ++ [u] := by
  induction l with
  | nil => cases h
  | cons c cs ih =>
    cases cs with
    | nil =>
      obtain rfl : c = u := by simpa [List.getLast?] using h
      rfl
    | cons d ds =>
      rw [List.getLast?_cons_cons] at h
      calc c :: d :: ds = c :: ((d :: ds).dropLast ++ [u]) := by rw [← ih h]
        _ = (c :: (d :: ds).dropLast) ++ [u] := by rw [List.cons_append]
        _ = (c :: d :: ds).dropLast ++ [u] := rfl

/-- Side definition following the claim wording only: the input literally
matches the regex `(\d+)(s|m|h|d|w|y)` anchored at both ends. -/
def specDurationFormat (s : String) : Bool := (durationRegexMatch s).isSome

/-- Side definition following the claim wording only: the input is a bare
digit string. -/
def specBareDigits (s : String) : Bool := !s.data.isEmpty && s.data.all jsIsDigit

/-- C8 counterexample: the input 15M neither matches the claimed regex
(the unit is uppercase) nor is a bare digit string, so by the claim the
parser should throw; the code lowercases first and returns 900 seconds. -/
theorem parseDuration_accepts_unnormalized :
    specDurationFormat "15M" = false ∧ specBareDigits "15M" = false ∧
    parseDurationToSeconds "15M" = some 900 := by
  decide

/-- C8 amended: the parser first trims and lowercases the input. On a
string literally matching the regex it returns the digit value times the
unit multiplier (s=1, m=60, h=3600, d=86400, w=604800, y=31536000); on a
bare digit string it returns that integer as seconds; and it throws a
configuration error exactly for inputs whose trimmed and lowercased form
matches neither shape (so some raw strings outside both shapes, such as
15M, are still accepted after normalization). -/
theorem parseDurationToSeconds_contract (s : String) (ds : List Char) (u : Char) (m : Nat) :
    (durationRegexMatch s = some (ds, u) → multipliers u = some m →
      parseDurationToSeconds s = some (digitsVal ds * m)) ∧
    (specBareDigits s = true → parseDurationToSeconds s = some (digitsVal s.data)) ∧
    (specBareDigits (jsToLower (jsTrim s)) = false →
      specDurationFormat (jsToLower (jsTrim s)) = false →
      parseDurationToSeconds s = none) ∧
    (multipliers 's' = some 1 ∧ multipliers 'm' = some 60 ∧ multipliers 'h' = some 3600 ∧
     multipliers 'd' = some 86400 ∧ multipliers 'w' = some 604800 ∧
     multipliers 'y' = some 31536000) := by
  refine ⟨?_, ?_, ?_, by decide⟩
  · intro hm hmu
    unfold durationRegexMatch at hm
    cases hlast : s.data.getLast? with
    | none => rw [hlast] at hm; cases hm
    | some u' =>
      rw [hlast] at hm
      dsimp only at hm
      by_cases hcond : s.data.dropLast ≠ [] ∧ (s.data.dropLast).all jsIsDigit ∧
          (u' = 's' ∨ u' = 'm' ∨ u' = 'h' ∨ u' = 'd' ∨ u' = 'w' ∨ u' = 'y')
      · rw [if_pos hcond] at hm
        obtain ⟨hds, huu⟩ := Prod.mk.inj (Option.some.inj hm)
        subst hds
        subst huu
        have hdecomp := getLast?_decomp s.data u' hlast
        have hda : ∀ c ∈ s.data.dropLast, jsIsDigit c = true :=
          fun c hc => List.all_eq_true.mp hcond.2.1 c hc
        have hwhite : ∀ c ∈ s.data, jsIsWhite c = false := by
          intro c hc
          rw [hdecomp] at hc
          rcases List.mem_append.mp hc with hc | hc
          · exact digit_not_white c (hda c hc)
          · rw [List.mem_singleton.mp hc]
            exact (unit_char_props u' hcond.2.2).1
        have hupper : ∀ c ∈ s.data, ¬('A' ≤ c ∧ c ≤ 'Z') := by
          intro c hc
          rw [hdecomp] at hc
          rcases List.mem_append.mp hc with hc | hc
          · exact digit_not_upper c (hda c hc)
          · rw [List.mem_singleton.mp hc]
            exact (unit_char_props u' hcond.2.2).2.1
        have htrim : jsTrim s = s := jsTrim_eq_self s hwhite
        have hlow : jsToLower s = s := jsToLower_eq_self s hupper
        have hne : ¬((jsTrim s).data.length = 0) := by
          rw [htrim, hdecomp]
          simp
        have hre : durationRegexMatch s = some (s.data.dropLast, u') := by
          unfold durationRegexMatch
          rw [hlast]
          dsimp only
          rw [if_pos hcond]
        have hnotall : ¬(s.data ≠ [] ∧ s.data.all jsIsDigit = true) := by
          rintro ⟨-, hall⟩
          have hud := List.all_eq_true.mp hall u' (by rw [hdecomp]; simp)
          rw [(unit_char_props u' hcond.2.2).2.2] at hud
          cases hud
        unfold parseDurationToSeconds
        rw [if_neg hne]
        dsimp only
        rw [htrim, hlow, if_neg hnotall, hre]
        dsimp only
        rw [hmu]
      · rw [if_neg hcond] at hm
        cases hm
  · intro hbare
    unfold specBareDigits at hbare
    rw [Bool.and_eq_true, Bool.not_eq_eq_eq_not, Bool.not_true] at hbare
    obtain ⟨hne0, hall⟩ := hbare
    have hnil : s.data ≠ [] := by
      intro h0
      rw [h0] at hne0
      exact absurd hne0 (by decide)
    have hda : ∀ c ∈ s.data, jsIsDigit c = true := fun c hc => List.all_eq_true.mp hall c hc
    have htrim : jsTrim s = s := jsTrim_eq_self s (fun c hc => digit_not_white c (hda c hc))
    have hlow : jsToLower s = s := jsToLower_eq_self s (fun c hc => digit_not_upper c (hda c hc))
    have hne : ¬((jsTrim s).data.length = 0) := by
      rw [htrim, List.length_eq_zero]
      exact hnil
    unfold parseDurationToSeconds
    rw [if_neg hne]
    dsimp only
    rw [htrim, hlow, if_pos ⟨hnil, hall⟩]
  · intro hbare hfmt
    unfold parseDurationToSeconds
    by_cases hlen : (jsTrim s).data.length = 0
    · rw [if_pos hlen]
    · rw [if_neg hlen]
      dsimp only
      unfold specBareDigits at hbare
      rw [Bool.and_eq_false_iff] at hbare
      have hnotall : ¬((jsToLower (jsTrim s)).data ≠ [] ∧
          (jsToLower (jsTrim s)).data.all jsIsDigit = true) := by
        rintro ⟨hne0, hall⟩
        rcases hbare with hb | hb
        · rw [Bool.not_eq_eq_eq_not, Bool.not_false, List.isEmpty_iff] at hb
          exact hne0 hb
        · rw [hall] at hb
          cases hb
      rw [if_neg hnotall]
      unfold specDurationFormat at hfmt
      cases hdm : durationRegexMatch (jsToLower (jsTrim s)) with
      | none => rfl
      | some pr =>
        rw [hdm] at hfmt
        cases hfmt

/-- Witness for the amended C8: a regex-shaped input, a bare digit input,
and a rejected input. -/
theorem parseDurationToSeconds_contract_witness :
    parseDurationToSeconds "45s" = some 45 ∧
    parseDurationToSeconds "123" = some 123 ∧
    parseDurationToSeconds "1x" = none :=
  ⟨((parseDurationToSeconds_contract "45s" ['4', '5'] 's' 1).1
      (by decide) (by decide)).trans (by decide),
   ((parseDurationToSeconds_contract "123" [] 'a' 0).2.1 (by decide)).trans (by decide),
   (parseDurationToSeconds_contract "1x" [] 'a' 0).2.2.1 (by decide) (by decide)⟩


/-- C9: Refresh rotation without single-use enforcement. For a refresh
token issued at t0, a refresh call at any t1 before its expiry succeeds
and mints a fresh access/refresh pair whose iat is t1 and whose exp is
computed from t1 (the stale iat/exp decoded from the old token are
stripped before re-signing); a second call with the newly minted token
succeeds, and — there being no blacklist or revocation store — a second
call with the ORIGINAL token at any t2 before the original expiry also
still succeeds, on both refresh handlers. -/
theorem refresh_rotation
    (accessExpiry refreshExpiry secret uid em : String) (attl rttl : Nat)
    (hpa : parseDurationToSeconds accessExpiry = some attl)
    (hpr : parseDurationToSeconds refreshExpiry = some rttl)
    (t0 t1 t2 : Int) (r0 : Token)
    (hr0 : signRefreshToken refreshExpiry (identityClaims uid em) secret t0 = some r0)
    (h1 : t1 < t0 + rttl) (h2 : t2 < t0 + rttl) (h3 : t2 < t1 + rttl) :
    (apiRefreshToken accessExpiry refreshExpiry secret ⟨some r0, none, none⟩ t1) =
      { status := 200, ok := true,
        bodyAccessToken := some (.signed
          { userId := some (.jstr uid), email := some (.jstr em),
            iat := some t1, exp := some (t1 + attl) } secret),
        bodyRefreshToken := some (.signed
          { userId := some (.jstr uid), email := some (.jstr em),
            iat := some t1, exp := some (t1 + rttl) } secret),
        cookieRefreshToken := some (.signed
          { userId := some (.jstr uid), email := some (.jstr em),
            iat := some t1, exp := some (t1 + rttl) } secret) } ∧
    (apiRefreshToken accessExpiry refreshExpiry secret
      ⟨some (.signed { userId := some (.jstr uid), email := some (.jstr em),
                       iat := some t1, exp := some (t1 + rttl) } secret),
        none, none⟩ t2).status = 200 ∧
    (apiRefreshToken accessExpiry refreshExpiry secret ⟨some r0, none, none⟩ t2).status
      = 200 ∧
    verifyRefreshToken r0 secret t2 =
      some { userId := some (.jstr uid), email := some (.jstr em),
             iat := some t0, exp := some (t0 + rttl) } ∧
    (refreshTokenHandler accessExpiry refreshExpiry secret ⟨none, none, some r0⟩ t2).status
      = 200 := by
  have hr0e : r0 = .signed
      { userId := some (.jstr uid), email := some (.jstr em),
        iat := some t0, exp := some (t0 + rttl) } secret := by
    unfold signRefreshToken at hr0
    rw [hpr] at hr0
    exact (Option.some.inj hr0).symm
  subst hr0e
  refine ⟨?_, ?_, ?_, ?_, ?_⟩
  · simp [apiRefreshToken, apiRefreshExtractToken, verifyRefreshToken, verifyToken,
      jwtVerify, isStringClaim, createAccessToken, signRefreshToken, jwtSign, hpa, hpr, h1]
  · simp [apiRefreshToken, apiRefreshExtractToken, verifyRefreshToken, verifyToken,
      jwtVerify, isStringClaim, createAccessToken, signRefreshToken, jwtSign, hpa, hpr, h3]
  · simp [apiRefreshToken, apiRefreshExtractToken, verifyRefreshToken, verifyToken,
      jwtVerify, isStringClaim, createAccessToken, signRefreshToken, jwtSign, hpa, hpr, h2]
  · simp [verifyRefreshToken, verifyToken, jwtVerify, isStringClaim, h2]
  · simp [refreshTokenHandler, refreshExtractToken, getClientType, jsToLower,
      verifyRefreshToken, verifyToken, jwtVerify, isStringClaim, createAccessToken,
      signRefreshToken, jwtSign, hpa, hpr, h2]

/-- Witness for C9: with the deployed 15m/7d configuration, a second
refresh call reusing the original refresh token still succeeds. -/
theorem refresh_rotation_witness :
    (apiRefreshToken "15m" "7d" "sec"
      ⟨some (.signed
        { userId := some (.jstr "u"), email := some (.jstr "e"),
          iat := some 0, exp := some 604800 } "sec"), none, none⟩ 200).status = 200 :=
  (refresh_rotation "15m" "7d" "sec" "u" "e" 900 604800 (by decide) (by decide) 0 100 200
    (.signed { userId := some (.jstr "u"), email := some (.jstr "e"),
               iat := some 0, exp := some 604800 } "sec")
    (by decide) (by decide) (by decide) (by decide)).2.2.1

/-- C10: Implicit third authentication channel on profile. A profile
request with no session user and no Bearer authorization header, carrying
a refresh_token cookie that verifies as a valid refresh token with a
truthy userId whose user row exists, is answered 200 with that identity,
and a freshly minted access token is set in the x-new-access-token
response header. -/
theorem apiGetProfile_refresh_channel
    (accessExpiry secret : String) (attl : Nat)
    (hpa : parseDurationToSeconds accessExpiry = some attl)
    (store : UserStore) (req : ProfileRequest) (now : Int)
    (hs : req.sessionUser = none)
    (hb : ∀ tok, req.authorization ≠ some (.bearer tok))
    (rtok : Token) (hc : req.cookieRefreshToken = some rtok)
    (p : Claims) (hv : verifyRefreshToken rtok secret now = some p)
    (uid em : String) (hu : p.userId = some (.jstr uid)) (he : p.email = some (.jstr em))
    (hne : uid ≠ "")
    (u : User) (hfind : store.find? (fun x => x.id = uid) = some u) :
    apiGetProfile accessExpiry secret store req now =
      { status := 200, success := true, userId? := some u.id,
        newAccessTokenHeader := some (.signed
          { userId := some (.jstr uid), email := some (.jstr em),
            iat := some now, exp := some (now + attl) } secret) } := by
  have hres : apiProfileResolve accessExpiry secret req now =
      (some uid, some (.signed
        { userId := some (.jstr uid), email := some (.jstr em),
          iat := some now, exp := some (now + attl) } secret)) := by
    unfold apiProfileResolve
    rw [hs]
    cases ha : req.authorization with
    | none =>
      simp [hc, hv, hu, he, hne, createAccessToken, hpa, jwtSign, identityClaims]
    | some ah =>
      cases ah with
      | bearer tok => exact absurd ha (hb tok)
      | other raw =>
        simp [hc, hv, hu, he, hne, createAccessToken, hpa, jwtSign, identityClaims]
  unfold apiGetProfile
  rw [hres]
  dsimp only
  rw [hfind]

/-- Witness for C10: a concrete cookie-only profile request is served and
receives a fresh access token header. -/
theorem apiGetProfile_refresh_channel_witness :
    apiGetProfile "15m" "sec" [⟨"1", "alice", "a@b.com", "H"⟩]
      ⟨none, none, some (.signed
        { userId := some (.jstr "1"), email := some (.jstr "a@b.com"),
          iat := some 0, exp := some 604800 } "sec")⟩ 10 =
      { status := 200, success := true, userId? := some "1",
        newAccessTokenHeader := some (.signed
          { userId := some (.jstr "1"), email := some (.jstr "a@b.com"),
            iat := some 10, exp := some 910 } "sec") } :=
  apiGetProfile_refresh_channel "15m" "sec" 900 (by decide)
    [⟨"1", "alice", "a@b.com", "H"⟩]
    ⟨none, none, some (.signed
      { userId := some (.jstr "1"), email := some (.jstr "a@b.com"),
        iat := some 0, exp := some 604800 } "sec")⟩ 10
    rfl (fun tok h => Option.noConfusion h)
    (.signed
      { userId := some (.jstr "1"), email := some (.jstr "a@b.com"),
        iat := some 0, exp := some 604800 } "sec") rfl
    { userId := some (.jstr "1"), email := some (.jstr "a@b.com"),
      iat := some 0, exp := some 604800 } (by decide)
    "1" "a@b.com" rfl rfl (by decide)
    ⟨"1", "alice", "a@b.com", "H"⟩ (by decide)

end AuthFlow
